import Mathlib

/-!
Verification development for the HTTP integrity-checksum subsystem of the
aws-sdk-rust excerpt: the checksum engines, the base64 wire encoding, the
HTTP checksum adapter of aws-smithy-checksums/src/http.rs, the response
verification priority order, and the generated backupstorage model enums.

Bytes are modelled as natural numbers (each meaningful modulo 256) and
32-bit machine words as natural numbers reduced modulo 2^32 wherever
overflow matters.
-/

/-- Reduce a natural number to a 32-bit word value. -/
def w32 (x : Nat) : Nat := x % 4294967296

/-- Rotate a 32-bit word left by n bits. -/
def rotl32 (x n : Nat) : Nat := w32 ((x <<< n) ||| (x >>> (32 - n)))

/-- Rotate a 32-bit word right by n bits. -/
def rotr32 (x n : Nat) : Nat := w32 ((x >>> n) ||| (x <<< (32 - n)))

/-- Big-endian 4-byte encoding of a 32-bit word. -/
def be4 (n : Nat) : List Nat :=
  [(n >>> 24) % 256, (n >>> 16) % 256, (n >>> 8) % 256, n % 256]

/-- Big-endian 8-byte encoding of a 64-bit value. -/
def be8 (n : Nat) : List Nat :=
  [(n >>> 56) % 256, (n >>> 48) % 256, (n >>> 40) % 256, (n >>> 32) % 256,
   (n >>> 24) % 256, (n >>> 16) % 256, (n >>> 8) % 256, n % 256]

/-- Little-endian 4-byte encoding of a 32-bit word. -/
def le4 (n : Nat) : List Nat :=
  [n % 256, (n >>> 8) % 256, (n >>> 16) % 256, (n >>> 24) % 256]

/-- Little-endian 8-byte encoding of a 64-bit value. -/
def le8 (n : Nat) : List Nat :=
  [n % 256, (n >>> 8) % 256, (n >>> 16) % 256, (n >>> 24) % 256,
   (n >>> 32) % 256, (n >>> 40) % 256, (n >>> 48) % 256, (n >>> 56) % 256]

/-- Apply a function n times. -/
def applyN (f : α → α) : Nat → α → α
  | 0, a => a
  | n + 1, a => applyN f n (f a)

/-! ## CRC engines

Modelled from the spec: the concrete digest engines live in external
crates (crc32fast, crc32c), outside the excerpt; the spec treats them as
streaming engines with a 4-byte big-endian digest, and the tests in
http.rs pin the empty-input digest to all zeroes. This is the standard
reflected bitwise CRC with initial value 0xFFFFFFFF and final complement.
-/

/-- One bit step of a reflected CRC: shift right, conditionally XOR the
reflected polynomial. -/
def crcBit (poly crc : Nat) : Nat :=
  if crc &&& 1 == 1 then (crc >>> 1) ^^^ poly else crc >>> 1

/-- Fold one input byte into a running CRC state (8 bit steps). -/
def crcByteStep (poly crc byte : Nat) : Nat :=
  applyN (crcBit poly) 8 (crc ^^^ (byte % 256))

/-- Reflected polynomial of CRC-32 (ISO 3309). -/
def CRC32_POLY : Nat := 0xEDB88320

/-- Reflected polynomial of CRC-32C (Castagnoli). -/
def CRC32C_POLY : Nat := 0x82F63B78

/-! ## Merkle-Damgard streaming state

Modelled from the spec: SHA-1, SHA-256 and MD5 engines (external sha1,
sha2, md-5 crates) are streaming hashers; the state is the chaining
words, the buffered partial block, and the total byte count. Each byte
fed either extends the buffer or completes a 64-byte block that is
compressed immediately.
-/

/-- Streaming state of a Merkle-Damgard hash: chaining words, a partial
input block of fewer than 64 bytes, and the total number of bytes fed. -/
structure MDState where
  hwords : List Nat
  buffer : List Nat
  total : Nat
deriving DecidableEq, Repr

/-- Feed one byte into a Merkle-Damgard state, compressing when a full
64-byte block is available. -/
def mdStep (compress : List Nat → List Nat → List Nat) (s : MDState) (b : Nat) : MDState :=
  let buffer := s.buffer ++ [b % 256]
  if buffer.length == 64 then ⟨compress s.hwords buffer, [], s.total + 1⟩
  else ⟨s.hwords, buffer, s.total + 1⟩

/-- Feed a chunk of bytes into a Merkle-Damgard state, one byte at a time. -/
def mdUpdate (compress : List Nat → List Nat → List Nat) (s : MDState) (data : List Nat) : MDState :=
  data.foldl (mdStep compress) s

/-- Merkle-Damgard padding with a big-endian 64-bit bit length (SHA-1 and
SHA-256): a 0x80 byte, zeroes up to 56 mod 64, then the length field. -/
def shaPad (len : Nat) : List Nat :=
  128 :: List.replicate ((119 - len % 64) % 64) 0 ++ be8 (len * 8)

/-- Merkle-Damgard padding with a little-endian 64-bit bit length (MD5). -/
def md5Pad (len : Nat) : List Nat :=
  128 :: List.replicate ((119 - len % 64) % 64) 0 ++ le8 (len * 8)

/-- Parse a byte list into big-endian 32-bit words. -/
def beWords : List Nat → List Nat
  | a :: b :: c :: d :: rest => (a * 16777216 + b * 65536 + c * 256 + d) :: beWords rest
  | _ => []

/-- Parse a byte list into little-endian 32-bit words. -/
def leWords : List Nat → List Nat
  | a :: b :: c :: d :: rest => (a + b * 256 + c * 65536 + d * 16777216) :: leWords rest
  | _ => []

/-! ## SHA-256 (FIPS 180-4), modelled from the spec as the standard algorithm. -/

/-- SHA-256 round constants, written in decimal. -/
def K256 : List Nat :=
  [1116352408, 1899447441, 3049323471, 3921009573, 961987163, 1508970993,
   2453635748, 2870763221, 3624381080, 310598401, 607225278, 1426881987,
   1925078388, 2162078206, 2614888103, 3248222580, 3835390401, 4022224774,
   264347078, 604807628, 770255983, 1249150122, 1555081692, 1996064986,
   2554220882, 2821834349, 2952996808, 3210313671, 3336571891, 3584528711,
   113926993, 338241895, 666307205, 773529912, 1294757372, 1396182291,
   1695183700, 1986661051, 2177026350, 2456956037, 2730485921, 2820302411,
   3259730800, 3345764771, 3516065817, 3600352804, 4094571909, 275423344,
   430227734, 506948616, 659060556, 883997877, 958139571, 1322822218,
   1537002063, 1747873779, 1955562222, 2024104815, 2227730452, 2361852424,
   2428436474, 2756734187, 3204031479, 3329325298]

/-- SHA-256 initial chaining words, written in decimal. -/
def sha256Init : List Nat :=
  [1779033703, 3144134277, 1013904242, 2773480762,
   1359893119, 2600822924, 528734635, 1541459225]

/-- SHA-2 choice function. -/
def shaCh (x y z : Nat) : Nat := (x &&& y) ^^^ ((x ^^^ 0xFFFFFFFF) &&& z)

/-- SHA-2 majority function. -/
def shaMaj (x y z : Nat) : Nat := (x &&& y) ^^^ (x &&& z) ^^^ (y &&& z)

/-- SHA-256 big Sigma0. -/
def bigSigma0 (x : Nat) : Nat := rotr32 x 2 ^^^ rotr32 x 13 ^^^ rotr32 x 22

/-- SHA-256 big Sigma1. -/
def bigSigma1 (x : Nat) : Nat := rotr32 x 6 ^^^ rotr32 x 11 ^^^ rotr32 x 25

/-- SHA-256 small sigma0. -/
def smallSigma0 (x : Nat) : Nat := rotr32 x 7 ^^^ rotr32 x 18 ^^^ (x >>> 3)

/-- SHA-256 small sigma1. -/
def smallSigma1 (x : Nat) : Nat := rotr32 x 17 ^^^ rotr32 x 19 ^^^ (x >>> 10)

/-- Extend a SHA-256 message schedule by one word. -/
def sha256ExtendStep (w : List Nat) : List Nat :=
  let n := w.length
  w ++ [w32 (w.getD (n - 16) 0 + smallSigma0 (w.getD (n - 15) 0)
             + w.getD (n - 7) 0 + smallSigma1 (w.getD (n - 2) 0))]

/-- One SHA-256 round on the 8-word working state. -/
def sha256Round (st : Nat × Nat × Nat × Nat × Nat × Nat × Nat × Nat) (kw : Nat × Nat) :
    Nat × Nat × Nat × Nat × Nat × Nat × Nat × Nat :=
  match st, kw with
  | (a, b, c, d, e, f, g, h), (k, w) =>
    let t1 := w32 (h + bigSigma1 e + shaCh e f g + k + w)
    let t2 := w32 (bigSigma0 a + shaMaj a b c)
    (w32 (t1 + t2), a, b, c, w32 (d + t1), e, f, g)

/-- SHA-256 compression of one 64-byte block into the chaining words. -/
def sha256Compress (hs : List Nat) (block : List Nat) : List Nat :=
  let ws := applyN sha256ExtendStep 48 (beWords block)
  let a0 := hs.getD 0 0
  let b0 := hs.getD 1 0
  let c0 := hs.getD 2 0
  let d0 := hs.getD 3 0
  let e0 := hs.getD 4 0
  let f0 := hs.getD 5 0
  let g0 := hs.getD 6 0
  let h0 := hs.getD 7 0
  match (List.zip K256 ws).foldl sha256Round (a0, b0, c0, d0, e0, f0, g0, h0) with
  | (a, b, c, d, e, f, g, h) =>
    [w32 (a0 + a), w32 (b0 + b), w32 (c0 + c), w32 (d0 + d),
     w32 (e0 + e), w32 (f0 + f), w32 (g0 + g), w32 (h0 + h)]

/-! ## SHA-1 (FIPS 180-4), modelled from the spec as the standard algorithm. -/

/-- SHA-1 initial chaining words. -/
def sha1Init : List Nat := [0x67452301, 0xEFCDAB89, 0x98BADCFE, 0x10325476, 0xC3D2E1F0]

/-- SHA-1 round function, selected by round index. -/
def sha1F (t b c d : Nat) : Nat :=
  if t < 20 then (b &&& c) ||| ((b ^^^ 0xFFFFFFFF) &&& d)
  else if t < 40 then b ^^^ c ^^^ d
  else if t < 60 then (b &&& c) ||| (b &&& d) ||| (c &&& d)
  else b ^^^ c ^^^ d

/-- SHA-1 round constant, selected by round index. -/
def sha1K (t : Nat) : Nat :=
  if t < 20 then 0x5A827999
  else if t < 40 then 0x6ED9EBA1
  else if t < 60 then 0x8F1BBCDC
  else 0xCA62C1D6

/-- Extend a SHA-1 message schedule by one word. -/
def sha1ExtendStep (w : List Nat) : List Nat :=
  let n := w.length
  w ++ [rotl32 (w.getD (n - 3) 0 ^^^ w.getD (n - 8) 0 ^^^ w.getD (n - 14) 0 ^^^ w.getD (n - 16) 0) 1]

/-- One SHA-1 round on the 5-word working state. -/
def sha1Round (st : Nat × Nat × Nat × Nat × Nat) (tw : Nat × Nat) :
    Nat × Nat × Nat × Nat × Nat :=
  match st, tw with
  | (a, b, c, d, e), (t, w) =>
    (w32 (rotl32 a 5 + sha1F t b c d + e + sha1K t + w), a, rotl32 b 30, c, d)

/-- SHA-1 compression of one 64-byte block into the chaining words. -/
def sha1Compress (hs : List Nat) (block : List Nat) : List Nat :=
  let ws := applyN sha1ExtendStep 64 (beWords block)
  let a0 := hs.getD 0 0
  let b0 := hs.getD 1 0
  let c0 := hs.getD 2 0
  let d0 := hs.getD 3 0
  let e0 := hs.getD 4 0
  match (List.zip (List.range 80) ws).foldl sha1Round (a0, b0, c0, d0, e0) with
  | (a, b, c, d, e) =>
    [w32 (a0 + a), w32 (b0 + b), w32 (c0 + c), w32 (d0 + d), w32 (e0 + e)]

/-- Finalize a SHA-1 or SHA-256 streaming state: absorb the padding and
render the chaining words big-endian. -/
def shaFinalizeWith (compress : List Nat → List Nat → List Nat) (s : MDState) : List Nat :=
  let s2 := (shaPad s.total).foldl (mdStep compress) s
  s2.hwords.foldr (fun w acc => be4 w ++ acc) []

/-! ## MD5 (RFC 1321), modelled from the spec as the standard algorithm. -/

/-- MD5 initial chaining words. -/
def md5Init : List Nat := [0x67452301, 0xefcdab89, 0x98badcfe, 0x10325476]

/-- MD5 sine-derived round constants. -/
def md5T : List Nat :=
  [0xd76aa478, 0xe8c7b756, 0x242070db, 0xc1bdceee, 0xf57c0faf, 0x4787c62a, 0xa8304613, 0xfd469501,
   0x698098d8, 0x8b44f7af, 0xffff5bb1, 0x895cd7be, 0x6b901122, 0xfd987193, 0xa679438e, 0x49b40821,
   0xf61e2562, 0xc040b340, 0x265e5a51, 0xe9b6c7aa, 0xd62f105d, 0x02441453, 0xd8a1e681, 0xe7d3fbc8,
   0x21e1cde6, 0xc33707d6, 0xf4d50d87, 0x455a14ed, 0xa9e3e905, 0xfcefa3f8, 0x676f02d9, 0x8d2a4c8a,
   0xfffa3942, 0x8771f681, 0x6d9d6122, 0xfde5380c, 0xa4beea44, 0x4bdecfa9, 0xf6bb4b60, 0xbebfbc70,
   0x289b7ec6, 0xeaa127fa, 0xd4ef3085, 0x04881d05, 0xd9d4d039, 0xe6db99e5, 0x1fa27cf8, 0xc4ac5665,
   0xf4292244, 0x432aff97, 0xab9423a7, 0xfc93a039, 0x655b59c3, 0x8f0ccc92, 0xffeff47d, 0x85845dd1,
   0x6fa87e4f, 0xfe2ce6e0, 0xa3014314, 0x4e0811a1, 0xf7537e82, 0xbd3af235, 0x2ad7d2bb, 0xeb86d391]

/-- MD5 per-round left-rotation amounts. -/
def md5S (i : Nat) : Nat :=
  let table := [[7, 12, 17, 22], [5, 9, 14, 20], [4, 11, 16, 23], [6, 10, 15, 21]]
  (table.getD (i / 16) []).getD (i % 4) 0

/-- One MD5 round on the 4-word working state, given the 16 message words. -/
def md5Round (m : List Nat) (st : Nat × Nat × Nat × Nat) (i : Nat) : Nat × Nat × Nat × Nat :=
  match st with
  | (a, b, c, d) =>
    let f :=
      if i < 16 then (b &&& c) ||| ((b ^^^ 0xFFFFFFFF) &&& d)
      else if i < 32 then (d &&& b) ||| ((d ^^^ 0xFFFFFFFF) &&& c)
      else if i < 48 then b ^^^ c ^^^ d
      else c ^^^ (b ||| (d ^^^ 0xFFFFFFFF))
    let g :=
      if i < 16 then i
      else if i < 32 then (5 * i + 1) % 16
      else if i < 48 then (3 * i + 5) % 16
      else (7 * i) % 16
    let tmp := w32 (a + f + md5T.getD i 0 + m.getD g 0)
    (d, w32 (b + rotl32 tmp (md5S i)), b, c)

/-- MD5 compression of one 64-byte block into the chaining words. -/
def md5Compress (hs : List Nat) (block : List Nat) : List Nat :=
  let m := leWords block
  let a0 := hs.getD 0 0
  let b0 := hs.getD 1 0
  let c0 := hs.getD 2 0
  let d0 := hs.getD 3 0
  match (List.range 64).foldl (md5Round m) (a0, b0, c0, d0) with
  | (a, b, c, d) => [w32 (a0 + a), w32 (b0 + b), w32 (c0 + c), w32 (d0 + d)]

/-- Finalize an MD5 streaming state: absorb the padding and render the
chaining words little-endian. -/
def md5FinalizeState (s : MDState) : List Nat :=
  let s2 := (md5Pad s.total).foldl (mdStep md5Compress) s
  s2.hwords.foldr (fun w acc => le4 w ++ acc) []

/-! ## Base64

Modelled from the spec: the base64 codec lives in aws-smithy-types,
outside the excerpt. Standard RFC 4648 alphabet with padding; the output
length of an n-byte input is ceil(n/3)*4.
-/

namespace base64

/-- The standard base64 alphabet. -/
def alphabet : String :=
  "ABCDEFGHIJKLMNOPQRSTUVWXYZabcdefghijklmnopqrstuvwxyz0123456789+/"

/-- Character of a six-bit group. -/
def sextetChar (n : Nat) : Char := alphabet.toList.getD (n % 64) 'A'

/-- Encode a byte list three bytes at a time, padding the final group. -/
def encodeCore : List Nat → List Char
  | a :: b :: c :: rest =>
      sextetChar ((a % 256) / 4) :: sextetChar ((a % 4) * 16 + (b % 256) / 16) ::
      sextetChar ((b % 16) * 4 + (c % 256) / 64) :: sextetChar (c % 64) :: encodeCore rest
  | [a, b] =>
      [sextetChar ((a % 256) / 4), sextetChar ((a % 4) * 16 + (b % 256) / 16),
       sextetChar ((b % 16) * 4), '=']
  | [a] => [sextetChar ((a % 256) / 4), sextetChar ((a % 4) * 16), '=', '=']
  | [] => []

/-- Base64-encode a byte list into a string. -/
def encode (data : List Nat) : String := String.mk (encodeCore data)

/-- Length in bytes of the base64 encoding of an input of the given byte
length. -/
def encoded_length (n : Nat) : Nat := (n + 2) / 3 * 4

end base64

/-! ## The checksum algorithm enumeration and header names (http.rs) -/

/-- The closed enumeration of checksum algorithms, as in the
ChecksumAlgorithm enum of aws-smithy-checksums. -/
inductive ChecksumAlgorithm
  | Crc32
  | Crc32c
  | Md5
  | Sha1
  | Sha256
deriving DecidableEq, Repr

/-- Header name constant for CRC-32 (http.rs line 17). -/
def CRC_32_HEADER_NAME : String := "x-amz-checksum-crc32"

/-- Header name constant for CRC-32C (http.rs line 18). -/
def CRC_32_C_HEADER_NAME : String := "x-amz-checksum-crc32c"

/-- Header name constant for SHA-1 (http.rs line 19). -/
def SHA_1_HEADER_NAME : String := "x-amz-checksum-sha1"

/-- Header name constant for SHA-256 (http.rs line 20). -/
def SHA_256_HEADER_NAME : String := "x-amz-checksum-sha256"

/-- Legacy header name constant for MD5 (http.rs line 23). -/
def MD5_HEADER_NAME : String := "content-md5"

/-- Modelled from the spec: the canonical uppercase algorithm name
strings (CRC_32_NAME and friends are declared in the crate root, outside
the excerpt). -/
def CRC_32_NAME : String := "CRC32"

/-- Modelled from the spec: canonical name of CRC-32C. -/
def CRC_32_C_NAME : String := "CRC32C"

/-- Modelled from the spec: canonical name of SHA-1. -/
def SHA_1_NAME : String := "SHA1"

/-- Modelled from the spec: canonical name of SHA-256. -/
def SHA_256_NAME : String := "SHA256"

/-- The response-verification priority order (http.rs lines 28-29). -/
def CHECKSUM_ALGORITHMS_IN_PRIORITY_ORDER : List String :=
  [CRC_32_C_NAME, CRC_32_NAME, SHA_1_NAME, SHA_256_NAME]

/-- All variants of the ChecksumAlgorithm enumeration. -/
def allChecksumAlgorithms : List ChecksumAlgorithm :=
  [.Crc32, .Crc32c, .Md5, .Sha1, .Sha256]

/-! ## Checksum instances

Modelled from the spec: the five structs implementing the Checksum trait
(crate root, outside the excerpt) each own one live digest engine; a
fresh instance wraps a fresh engine.
-/

/-- A live checksum instance: one of the five structs implementing the
Checksum trait, each owning its engine state. -/
inductive CkState
  | crc32St (state : Nat)
  | crc32cSt (state : Nat)
  | md5St (state : MDState)
  | sha1St (state : MDState)
  | sha256St (state : MDState)
deriving DecidableEq, Repr

/-- Fresh checksum instance of a given algorithm, as produced by
ChecksumAlgorithm::into_impl. -/
def freshChecksum : ChecksumAlgorithm → CkState
  | .Crc32 => .crc32St 0xFFFFFFFF
  | .Crc32c => .crc32cSt 0xFFFFFFFF
  | .Md5 => .md5St ⟨md5Init, [], 0⟩
  | .Sha1 => .sha1St ⟨sha1Init, [], 0⟩
  | .Sha256 => .sha256St ⟨sha256Init, [], 0⟩

namespace Checksum

/-- Checksum::update — feed a chunk of bytes into the live engine. -/
def update : CkState → List Nat → CkState
  | .crc32St s, data => .crc32St (data.foldl (crcByteStep CRC32_POLY) s)
  | .crc32cSt s, data => .crc32cSt (data.foldl (crcByteStep CRC32C_POLY) s)
  | .md5St s, data => .md5St (mdUpdate md5Compress s data)
  | .sha1St s, data => .sha1St (mdUpdate sha1Compress s data)
  | .sha256St s, data => .sha256St (mdUpdate sha256Compress s data)

/-- Checksum::finalize — consume the instance and produce the raw
fixed-length digest. -/
def finalize : CkState → List Nat
  | .crc32St s => be4 (s ^^^ 0xFFFFFFFF)
  | .crc32cSt s => be4 (s ^^^ 0xFFFFFFFF)
  | .md5St s => md5FinalizeState s
  | .sha1St s => shaFinalizeWith sha1Compress s
  | .sha256St s => shaFinalizeWith sha256Compress s

/-- Checksum::size — the fixed raw digest length in bytes of the
algorithm, independent of any state. -/
def size : CkState → Nat
  | .crc32St _ => 4
  | .crc32cSt _ => 4
  | .md5St _ => 16
  | .sha1St _ => 20
  | .sha256St _ => 32

end Checksum

/-! ## The HTTP checksum adapter (http.rs) -/

/-- Validity of one byte of an HTTP header value, as checked by
HeaderValue::from_str of the http crate (modelled from the spec: the
conversion fails exactly when the string cannot be represented as a
valid header value). Visible characters, space and horizontal tab are
valid. -/
def isValidHeaderValueByte (b : Nat) : Bool :=
  b == 9 || (Nat.ble 32 b && b != 127)

namespace HeaderValue

/-- HeaderValue::from_str, modelled from the spec: succeeds with the
string itself when every byte is a valid header value byte, fails
otherwise. -/
def from_str (s : String) : Option String :=
  if s.toList.all (fun c => isValidHeaderValueByte c.toNat) then some s else none

end HeaderValue

namespace HttpChecksum

/-- HttpChecksum::header_name — the five per-type trait implementations
of http.rs lines 70-98, each returning its header name constant. -/
def header_name : CkState → String
  | .crc32St _ => CRC_32_HEADER_NAME
  | .crc32cSt _ => CRC_32_C_HEADER_NAME
  | .sha1St _ => SHA_1_HEADER_NAME
  | .sha256St _ => SHA_256_HEADER_NAME
  | .md5St _ => MD5_HEADER_NAME

/-- HttpChecksum::header_value (http.rs lines 48-52): finalize the
digest, base64-encode it, and convert to a header value. The expect in
the source is modelled by the Option result of the conversion. -/
def header_value (c : CkState) : Option String :=
  HeaderValue.from_str (base64.encode (Checksum.finalize c))

/-- HttpChecksum::size (http.rs lines 58-67): length of the header name,
plus one byte for the colon separator, plus the base64-encoded length of
the raw digest size. -/
def size (c : CkState) : Nat :=
  (header_name c).length + ":".length + base64.encoded_length (Checksum.size c)

end HttpChecksum

/-- The From ChecksumAlgorithm for HeaderName implementation
(http.rs lines 100-110). -/
def headerNameOfChecksumAlgorithm : ChecksumAlgorithm → String
  | .Crc32 => CRC_32_HEADER_NAME
  | .Crc32c => CRC_32_C_HEADER_NAME
  | .Md5 => MD5_HEADER_NAME
  | .Sha1 => SHA_1_HEADER_NAME
  | .Sha256 => SHA_256_HEADER_NAME

/-! ## The response verifier

Modelled from the spec: the verifier (section 4.4 of the design) is a
consumer of the priority order; it scans
CHECKSUM_ALGORITHMS_IN_PRIORITY_ORDER, resolves each name, looks up the
mapped header in the response's header set, and on the first hit
recomputes a checksum of that kind over the received body and compares
the base64-encoded value byte-for-byte with the header's literal value.
-/

/-- Modelled from the spec: resolve a request-facing algorithm name by a
case-sensitive match against the canonical uppercase names; unknown
names are rejected. -/
def resolve (s : String) : Option ChecksumAlgorithm :=
  if s = CRC_32_NAME then some .Crc32
  else if s = CRC_32_C_NAME then some .Crc32c
  else if s = SHA_1_NAME then some .Sha1
  else if s = SHA_256_NAME then some .Sha256
  else none

/-- Look up the first header with the given name in a header set. -/
def headerLookup : List (String × String) → String → Option String
  | [], _ => none
  | (n, v) :: rest, name => if n = name then some v else headerLookup rest name

/-- Outcome of response checksum verification (spec section 4.4). -/
inductive VerifyOutcome
  | Verified (algorithm : ChecksumAlgorithm)
  | Mismatch (algorithm : ChecksumAlgorithm) (expected actual : String)
  | NoChecksumPresent
deriving DecidableEq, Repr

/-- Scan a priority list of algorithm names against a response header
set; return the first resolved algorithm whose mapped header is present,
with the header's literal value. -/
def scanChecksumHeaders (headers : List (String × String)) : List String → Option (ChecksumAlgorithm × String)
  | [] => none
  | nm :: rest =>
      match resolve nm with
      | none => scanChecksumHeaders headers rest
      | some alg =>
          match headerLookup headers (headerNameOfChecksumAlgorithm alg) with
          | some v => some (alg, v)
          | none => scanChecksumHeaders headers rest

/-- The base64-encoded checksum value of a body under a given algorithm,
as recomputed by the verifier. -/
def computedChecksumValue (alg : ChecksumAlgorithm) (body : List Nat) : String :=
  base64.encode (Checksum.finalize (Checksum.update (freshChecksum alg) body))

/-- Modelled from the spec: the response verifier. Selection happens
first, on the header set alone; only the selected algorithm's digest is
ever computed over the body. -/
def verifyResponse (headers : List (String × String)) (body : List Nat) : VerifyOutcome :=
  match scanChecksumHeaders headers CHECKSUM_ALGORITHMS_IN_PRIORITY_ORDER with
  | none => .NoChecksumPresent
  | some (alg, headerVal) =>
      if computedChecksumValue alg body = headerVal then .Verified alg
      else .Mismatch alg (computedChecksumValue alg body) headerVal

/-! ## Generated model enums (backupstorage/src/model.rs) -/

/-- SummaryChecksumAlgorithm (model.rs lines 13-18). -/
inductive SummaryChecksumAlgorithm
  | Summary
  | Unknown (value : String)
deriving DecidableEq, Repr

namespace SummaryChecksumAlgorithm

/-- The From str implementation (model.rs lines 19-26): SUMMARY maps to
the known variant, anything else is preserved in Unknown. -/
def ofString (s : String) : SummaryChecksumAlgorithm :=
  if s = "SUMMARY" then .Summary else .Unknown s

/-- The FromStr implementation (model.rs lines 27-33): always Ok, with
the infallible error type modelled by Empty. -/
def from_str (s : String) : Except Empty SummaryChecksumAlgorithm :=
  .ok (ofString s)

/-- as_str (model.rs lines 35-41). -/
def as_str : SummaryChecksumAlgorithm → String
  | .Summary => "SUMMARY"
  | .Unknown s => s

end SummaryChecksumAlgorithm

/-- DataChecksumAlgorithm (model.rs lines 64-69). -/
inductive DataChecksumAlgorithm
  | Sha256
  | Unknown (value : String)
deriving DecidableEq, Repr

namespace DataChecksumAlgorithm

/-- The From str implementation (model.rs lines 70-77): SHA256 maps to
the known variant, anything else is preserved in Unknown. -/
def ofString (s : String) : DataChecksumAlgorithm :=
  if s = "SHA256" then .Sha256 else .Unknown s

/-- The FromStr implementation (model.rs lines 78-84): always Ok, with
the infallible error type modelled by Empty. -/
def from_str (s : String) : Except Empty DataChecksumAlgorithm :=
  .ok (ofString s)

/-- as_str (model.rs lines 86-92). -/
def as_str : DataChecksumAlgorithm → String
  | .Sha256 => "SHA256"
  | .Unknown s => s

end DataChecksumAlgorithm

/-! ## Theorems -/

/-- Claim C1: for every algorithm kind, size() on a fresh checksum equals
the header name length plus one separator byte plus the padded base64
length of the raw digest size; concretely 29 for CRC32, 30 for CRC32C,
48 for SHA-1, and 66 for SHA-256. -/
theorem size_of_fresh_checksum :
    (∀ a : ChecksumAlgorithm,
      HttpChecksum.size (freshChecksum a) =
        (HttpChecksum.header_name (freshChecksum a)).length + 1 +
          base64.encoded_length (Checksum.size (freshChecksum a)))
    ∧ HttpChecksum.size (freshChecksum .Crc32) = 29
    ∧ HttpChecksum.size (freshChecksum .Crc32c) = 30
    ∧ HttpChecksum.size (freshChecksum .Sha1) = 48
    ∧ HttpChecksum.size (freshChecksum .Sha256) = 66 :=
  ⟨fun a => by cases a <;> rfl, by decide, by decide, by decide, by decide⟩

/-- Claim C2: size() is a pure observation: after any sequence of bytes
has been fed by update, it returns the same value as on a fresh
instance, so its result is independent of how many and which bytes have
been hashed. -/
theorem size_independent_of_updates :
    ∀ (a : ChecksumAlgorithm) (data : List Nat),
      HttpChecksum.size (Checksum.update (freshChecksum a) data) =
        HttpChecksum.size (freshChecksum a) := by
  intro a data
  cases a <;> rfl

/-- Claim C3: the response-verification priority order is exactly the
four-element constant CRC32C, CRC32, SHA1, SHA256, and MD5 appears in it
under no spelling, nor does any of its elements resolve to the Md5
algorithm. -/
theorem priority_order_constant :
    CHECKSUM_ALGORITHMS_IN_PRIORITY_ORDER =
      [CRC_32_C_NAME, CRC_32_NAME, SHA_1_NAME, SHA_256_NAME]
    ∧ CHECKSUM_ALGORITHMS_IN_PRIORITY_ORDER = ["CRC32C", "CRC32", "SHA1", "SHA256"]
    ∧ CHECKSUM_ALGORITHMS_IN_PRIORITY_ORDER.length = 4
    ∧ CHECKSUM_ALGORITHMS_IN_PRIORITY_ORDER.contains "MD5" = false
    ∧ CHECKSUM_ALGORITHMS_IN_PRIORITY_ORDER.contains "md5" = false
    ∧ CHECKSUM_ALGORITHMS_IN_PRIORITY_ORDER.map resolve =
        [some .Crc32c, some .Crc32, some .Sha1, some .Sha256] := by
  decide

/-- Claim C4: the algorithm-to-header-name mapping is total over the
five-element enumeration, sends each variant to its documented lowercase
name, and the five header names are pairwise distinct (no duplicates)
and contain no uppercase character. -/
theorem header_name_mapping_total_injective :
    headerNameOfChecksumAlgorithm .Crc32 = "x-amz-checksum-crc32"
    ∧ headerNameOfChecksumAlgorithm .Crc32c = "x-amz-checksum-crc32c"
    ∧ headerNameOfChecksumAlgorithm .Sha1 = "x-amz-checksum-sha1"
    ∧ headerNameOfChecksumAlgorithm .Sha256 = "x-amz-checksum-sha256"
    ∧ headerNameOfChecksumAlgorithm .Md5 = "content-md5"
    ∧ (∀ a : ChecksumAlgorithm, a ∈ allChecksumAlgorithms)
    ∧ (allChecksumAlgorithms.map headerNameOfChecksumAlgorithm).Nodup
    ∧ (allChecksumAlgorithms.map headerNameOfChecksumAlgorithm).all
        (fun n => n.toList.all (fun c => !c.isUpper)) = true := by
  refine ⟨by decide, by decide, by decide, by decide, by decide,
          fun a => by cases a <;> decide, by decide, by decide⟩

/-- Claim C9: the From ChecksumAlgorithm for HeaderName conversion and
the per-type header_name trait implementations are extensionally equal:
for every algorithm kind they produce the same header name. -/
theorem header_name_impls_agree :
    ∀ a : ChecksumAlgorithm,
      HttpChecksum.header_name (freshChecksum a) = headerNameOfChecksumAlgorithm a := by
  intro a
  cases a <;> rfl

/-- Claim C10: the generated model enums round-trip every input string:
converting a string to the enum and reading it back with as_str yields
the original string, unknown values being preserved verbatim, and the
FromStr conversion never returns an error. -/
theorem model_enums_roundtrip :
    ∀ s : String,
      (SummaryChecksumAlgorithm.ofString s).as_str = s
      ∧ (DataChecksumAlgorithm.ofString s).as_str = s
      ∧ SummaryChecksumAlgorithm.from_str s = .ok (SummaryChecksumAlgorithm.ofString s)
      ∧ DataChecksumAlgorithm.from_str s = .ok (DataChecksumAlgorithm.ofString s) := by
  intro s
  refine ⟨?_, ?_, rfl, rfl⟩
  · unfold SummaryChecksumAlgorithm.ofString
    by_cases h : s = "SUMMARY" <;> simp [h, SummaryChecksumAlgorithm.as_str]
  · unfold DataChecksumAlgorithm.ofString
    by_cases h : s = "SHA256" <;> simp [h, DataChecksumAlgorithm.as_str]

/-- Claim C7: update is chunk-split invariant: feeding a concatenation
in one call leaves the instance in the same state as feeding the two
halves in successive calls, so the finalized digest depends only on the
concatenation of all bytes fed. -/
theorem update_chunk_split_invariant :
    ∀ (alg : ChecksumAlgorithm) (a b : List Nat),
      Checksum.update (freshChecksum alg) (a ++ b) =
        Checksum.update (Checksum.update (freshChecksum alg) a) b
      ∧ Checksum.finalize (Checksum.update (Checksum.update (freshChecksum alg) a) b) =
          Checksum.finalize (Checksum.update (freshChecksum alg) (a ++ b)) := by
  intro alg a b
  have h : ∀ c : CkState,
      Checksum.update c (a ++ b) = Checksum.update (Checksum.update c a) b := by
    intro c
    cases c <;> simp [Checksum.update, mdUpdate, List.foldl_append]
  exact ⟨h _, by rw [h]⟩

set_option maxRecDepth 100000 in
/-- Claim C6: header_value on a fresh checksum reproduces each
algorithm's well-known empty-input digest, base64-encoded: an all-zero
4-byte value for CRC32 and CRC32C, the da39a3ee... digest for SHA-1, and
the e3b0c442... digest for SHA-256. -/
theorem empty_stream_digests :
    HttpChecksum.header_value (freshChecksum .Crc32) = some (base64.encode [0, 0, 0, 0])
    ∧ HttpChecksum.header_value (freshChecksum .Crc32c) = some (base64.encode [0, 0, 0, 0])
    ∧ HttpChecksum.header_value (freshChecksum .Sha1) =
        some (base64.encode
          [0xda, 0x39, 0xa3, 0xee, 0x5e, 0x6b, 0x4b, 0x0d, 0x32, 0x55,
           0xbf, 0xef, 0x95, 0x60, 0x18, 0x90, 0xaf, 0xd8, 0x07, 0x09])
    ∧ HttpChecksum.header_value (freshChecksum .Sha256) =
        some (base64.encode
          [0xe3, 0xb0, 0xc4, 0x42, 0x98, 0xfc, 0x1c, 0x14, 0x9a, 0xfb, 0xf4, 0xc8,
           0x99, 0x6f, 0xb9, 0x24, 0x27, 0xae, 0x41, 0xe4, 0x64, 0x9b, 0x93, 0x4c,
           0xa4, 0x95, 0x99, 0x1b, 0x78, 0x52, 0xb8, 0x55]) := by
  decide

/-- Every character produced by the base64 sextet table is a valid
header value byte. -/
theorem sextetChar_valid (n : Nat) :
    isValidHeaderValueByte (base64.sextetChar n).toNat = true := by
  have h64 : n % 64 < 64 := Nat.mod_lt _ (by norm_num)
  have hall : ∀ j, j < 64 →
      isValidHeaderValueByte ((base64.alphabet.toList.getD j 'A').toNat) = true := by decide
  exact hall _ h64

/-- Every character of a base64 encoding is a valid header value byte. -/
theorem encodeCore_valid :
    ∀ l : List Nat, ∀ c ∈ base64.encodeCore l, isValidHeaderValueByte c.toNat = true := by
  intro l
  induction l using base64.encodeCore.induct with
  | case1 a b c rest ih =>
    intro x hx
    simp only [base64.encodeCore, List.mem_cons] at hx
    rcases hx with h | h | h | h | h
    · exact h ▸ sextetChar_valid _
    · exact h ▸ sextetChar_valid _
    · exact h ▸ sextetChar_valid _
    · exact h ▸ sextetChar_valid _
    · exact ih x h
  | case2 a b =>
    intro x hx
    simp only [base64.encodeCore, List.mem_cons, List.not_mem_nil, or_false] at hx
    rcases hx with h | h | h | h
    · exact h ▸ sextetChar_valid _
    · exact h ▸ sextetChar_valid _
    · exact h ▸ sextetChar_valid _
    · exact h ▸ (by decide)
  | case3 a =>
    intro x hx
    simp only [base64.encodeCore, List.mem_cons, List.not_mem_nil, or_false] at hx
    rcases hx with h | h | h | h
    · exact h ▸ sextetChar_valid _
    · exact h ▸ sextetChar_valid _
    · exact h ▸ (by decide)
    · exact h ▸ (by decide)
  | case4 =>
    intro x hx
    simp [base64.encodeCore] at hx

/-- Claim C5: header_value always succeeds: the base64 encoding of any
finalized digest is a valid HTTP header value, for every algorithm kind
and every byte stream fed, so the error branch of the header value
conversion is unreachable. -/
theorem header_value_never_fails :
    ∀ (alg : ChecksumAlgorithm) (data : List Nat),
      (HttpChecksum.header_value (Checksum.update (freshChecksum alg) data)).isSome = true := by
  intro alg data
  unfold HttpChecksum.header_value HeaderValue.from_str
  have h : (base64.encode (Checksum.finalize (Checksum.update (freshChecksum alg) data))).toList.all
      (fun c => isValidHeaderValueByte c.toNat) = true := by
    rw [List.all_eq_true]
    intro c hc
    exact encodeCore_valid _ c hc
  simp [h]
  intro x hx
  exact encodeCore_valid _ x hx

/-- Resolving the CRC-32C canonical name. -/
theorem resolve_crc32c : resolve CRC_32_C_NAME = some ChecksumAlgorithm.Crc32c := by decide

/-- Resolving the CRC-32 canonical name. -/
theorem resolve_crc32 : resolve CRC_32_NAME = some ChecksumAlgorithm.Crc32 := by decide

/-- Resolving the SHA-1 canonical name. -/
theorem resolve_sha1 : resolve SHA_1_NAME = some ChecksumAlgorithm.Sha1 := by decide

/-- Resolving the SHA-256 canonical name. -/
theorem resolve_sha256 : resolve SHA_256_NAME = some ChecksumAlgorithm.Sha256 := by decide

/-- Claim C8: verifier priority. If the CRC-32C header is absent while
the CRC-32 and SHA-256 headers are both present with correct values, the
verifier selects CRC-32, the higher-priority algorithm; if only the
SHA-256 header among the priority-ordered ones is present with a correct
value, it selects SHA-256; if none of the four priority-ordered headers
is present, it reports NoChecksumPresent. Selection happens before any
digest is computed, so the unselected digests are never evaluated. -/
theorem verifier_priority :
    (∀ (headers : List (String × String)) (body : List Nat),
      headerLookup headers CRC_32_C_HEADER_NAME = none →
      headerLookup headers CRC_32_HEADER_NAME = some (computedChecksumValue .Crc32 body) →
      headerLookup headers SHA_256_HEADER_NAME = some (computedChecksumValue .Sha256 body) →
      verifyResponse headers body = .Verified .Crc32)
    ∧ (∀ (headers : List (String × String)) (body : List Nat),
      headerLookup headers CRC_32_C_HEADER_NAME = none →
      headerLookup headers CRC_32_HEADER_NAME = none →
      headerLookup headers SHA_1_HEADER_NAME = none →
      headerLookup headers SHA_256_HEADER_NAME = some (computedChecksumValue .Sha256 body) →
      verifyResponse headers body = .Verified .Sha256)
    ∧ (∀ (headers : List (String × String)) (body : List Nat),
      headerLookup headers CRC_32_C_HEADER_NAME = none →
      headerLookup headers CRC_32_HEADER_NAME = none →
      headerLookup headers SHA_1_HEADER_NAME = none →
      headerLookup headers SHA_256_HEADER_NAME = none →
      verifyResponse headers body = .NoChecksumPresent) := by
  refine ⟨?_, ?_, ?_⟩
  · intro headers body h1 h2 h3
    simp [verifyResponse, CHECKSUM_ALGORITHMS_IN_PRIORITY_ORDER, scanChecksumHeaders,
          resolve_crc32c, resolve_crc32, headerNameOfChecksumAlgorithm, h1, h2]
  · intro headers body h1 h2 h3 h4
    simp [verifyResponse, CHECKSUM_ALGORITHMS_IN_PRIORITY_ORDER, scanChecksumHeaders,
          resolve_crc32c, resolve_crc32, resolve_sha1, resolve_sha256,
          headerNameOfChecksumAlgorithm, h1, h2, h3, h4]
  · intro headers body h1 h2 h3 h4
    simp [verifyResponse, CHECKSUM_ALGORITHMS_IN_PRIORITY_ORDER, scanChecksumHeaders,
          resolve_crc32c, resolve_crc32, resolve_sha1, resolve_sha256,
          headerNameOfChecksumAlgorithm, h1, h2, h3, h4]

set_option maxRecDepth 100000 in
/-- Witness for the verifier priority theorem at concrete inputs: the
empty body with its correct CRC-32 and SHA-256 header values. -/
theorem verifier_priority_witness :
    verifyResponse
      [("x-amz-checksum-crc32", "AAAAAA=="),
       ("x-amz-checksum-sha256", "47DEQpj8HBSa+/TImW+5JCeuQeRkm5NMpJWZG3hSuFU=")] []
      = .Verified .Crc32
    ∧ verifyResponse
        [("x-amz-checksum-sha256", "47DEQpj8HBSa+/TImW+5JCeuQeRkm5NMpJWZG3hSuFU=")] []
        = .Verified .Sha256
    ∧ verifyResponse [("content-type", "text/plain")] [] = .NoChecksumPresent := by
  refine ⟨verifier_priority.1 _ _ ?_ ?_ ?_,
          verifier_priority.2.1 _ _ ?_ ?_ ?_ ?_,
          verifier_priority.2.2 _ _ ?_ ?_ ?_ ?_⟩ <;> decide
